import Mathlib

/-!
Shallow embedding of `pdf_extractor/core.py` (repository DocTool).

The program reads fixed-layout PDF survey reports, tokenizes their text into a
rectangular "raw grid" of string cells (pandas DataFrame), extracts three
fixed-schema field tables out of hard-coded row/column offsets, and writes the
results to spreadsheet workbooks, one per input file.

Modelling decisions:
- A pandas DataFrame of string cells is modelled as `Grid := List (List String)`
  together with the pandas shape: `shape0` = number of rows, `shape1` = number
  of columns (the maximum row width; `extract_raw_data` pads every shorter row
  with `""` via `fillna("")`, which `getCell`'s default value reproduces).
- Python `str.strip()` is `pyStrip` (drop whitespace at both ends),
  `str.split()` with no argument is `pyTokens` (split on whitespace runs,
  dropping empties), `str.split(",")` is `splitOnChar ','` (keeps empties),
  `str.splitlines()` is `pySplitlines`.
- A field table (pandas DataFrame with named columns) is `DF`: the ordered
  column names plus row-major cell values.
- A PDF file is abstracted as `PdfFile`: whether `PdfReader` can open it, and
  the per-page extracted text.  Exceptions are explicit `ProcResult.raised`
  values; functions that cannot raise are total Lean functions.
-/

namespace DocTool

set_option maxRecDepth 20000

/-- Python `str.strip()`: remove whitespace from both ends. -/
def pyStrip (s : String) : String :=
  String.mk (((s.data.dropWhile Char.isWhitespace).reverse.dropWhile Char.isWhitespace).reverse)

/-- Python `str.split()` (no separator): split on whitespace runs, dropping empty tokens.
Used by `extract_raw_data` at core.py line 21 (`line.split()`). -/
def pyTokens (s : String) : List String :=
  ((s.data.splitOnP Char.isWhitespace).map String.mk).filter (fun t => t ≠ "")

/-- Python `str.split(sep)` for a one-character separator: split at every
occurrence, keeping empty segments (`"a,,b".split(",") = ["a","","b"]`). -/
def splitOnChar (c : Char) : List Char → List (List Char)
  | [] => [[]]
  | x :: xs =>
    let r := splitOnChar c xs
    if x = c then [] :: r
    else
      match r with
      | [] => [[x]]
      | y :: ys => (x :: y) :: ys

/-- Python `str.splitlines()` restricted to `'\n'` separators: like
`split("\n")` but with no trailing empty line when the text ends in a newline,
and `[]` on the empty string. -/
def pySplitlines (s : String) : List String :=
  if s = "" then []
  else
    let ls := (splitOnChar '\n' s.data).map String.mk
    if ls.getLast? = some "" then ls.dropLast else ls

/-- Raw token grid: one row per source line, one cell per token (core.py
`df_raw`).  Rows may be jagged; pandas' `""`-padding to the maximum row width
is reproduced by `getCell`. -/
abbrev Grid := List (List String)

/-- pandas `df.shape[0]`: number of rows. -/
def shape0 (g : Grid) : Nat := g.length

/-- pandas `df.shape[1]`: number of columns, i.e. the maximum row width
(`max_cols` at core.py line 30; 0 for the empty grid). -/
def shape1 (g : Grid) : Nat := (g.map List.length).foldr Nat.max 0

/-- Cell access `df.iloc[r, c]` on the padded grid: `""` outside the stored
row, matching `fillna("")`. -/
def getCell (g : Grid) (r c : Nat) : String := (g.getD r []).getD c ""

/-- pandas `df.empty`: true iff the frame has zero rows or zero columns. -/
def gridEmpty (g : Grid) : Prop := shape0 g = 0 ∨ shape1 g = 0

instance (g : Grid) : Decidable (gridEmpty g) := by unfold gridEmpty; infer_instance

/-- A pandas DataFrame with named columns: ordered column names plus row-major
cells (row `i`, entry `j` = value of column `j` in row `i`). -/
structure DF where
  cols : List String
  rows : List (List String)
deriving Repr, DecidableEq

/-- The fixed column schema of `extract_incoming_pipes` (core.py lines 41-43
and 47-62: both branches produce these columns in this order). -/
def inSchema : List String :=
  ["ID", "UPSTREAM REFERENCE", "PIPE SHAPE", "PIPE SIZE (mm)",
   "BACKDROP DIAM (mm)", "PIPE MATERIAL", "LINING",
   "DEPTH FROM COVER (m)", "INVERT LEVEL (m AD)"]

/-- The fixed column schema of `extract_outgoing_pipes` (core.py lines 71-73
and 77-93). -/
def outSchema : List String :=
  ["ID", "UPSTREAM REFERENCE", "PIPE SHAPE", "PIPE SIZE (mm)",
   "COND", "CRITY", "PIPE MATERIAL", "LINING",
   "DEPTH FROM COVER (m)", "INVERT LEVEL (m AD)"]

/-- Pipe-size concatenation (core.py lines 52-57 and 82-86): strip each of the
three source cells, join with single spaces, strip the result.  Note an empty
middle component leaves two adjacent spaces in the middle. -/
def pipeSize (a b c : String) : String :=
  pyStrip (pyStrip a ++ " " ++ pyStrip b ++ " " ++ pyStrip c)

/-- The guard of `extract_incoming_pipes` (core.py line 39):
`df_raw.empty or df_raw.shape[0] < 70 or df_raw.shape[1] < 11`. -/
def inGuard (g : Grid) : Prop := gridEmpty g ∨ shape0 g < 70 ∨ shape1 g < 11

instance (g : Grid) : Decidable (inGuard g) := by unfold inGuard; infer_instance

/-- `extract_incoming_pipes` (core.py lines 35-63): on an undersized grid,
return the empty table with the fixed schema; otherwise read the 7x11 block at
rows 63-69, columns 0-10, combining columns 3-5 into the pipe-size field. -/
def extract_incoming_pipes (g : Grid) : DF :=
  if inGuard g then { cols := inSchema, rows := [] }
  else
    { cols := inSchema,
      rows := (List.range 7).map (fun i =>
        let r := 63 + i
        [getCell g r 0, getCell g r 1, getCell g r 2,
         pipeSize (getCell g r 3) (getCell g r 4) (getCell g r 5),
         getCell g r 6, getCell g r 7, getCell g r 8,
         getCell g r 9, getCell g r 10]) }

/-- True exactly when `extract_incoming_pipes` prints its warning
(core.py line 40 is reached iff the line-39 guard holds). -/
def extract_incoming_pipes_warns (g : Grid) : Bool := decide (inGuard g)

/-- The guard of `extract_outgoing_pipes` (core.py line 69):
`df_raw.empty or df_raw.shape[0] < 85 or df_raw.shape[1] < 12`. -/
def outGuard (g : Grid) : Prop := gridEmpty g ∨ shape0 g < 85 ∨ shape1 g < 12

instance (g : Grid) : Decidable (outGuard g) := by unfold outGuard; infer_instance

/-- `extract_outgoing_pipes` (core.py lines 65-94): on an undersized grid,
return the empty table with the fixed schema; otherwise read the 2x12 block at
rows 83-84, columns 0-11, combining columns 3-5 into the pipe-size field. -/
def extract_outgoing_pipes (g : Grid) : DF :=
  if outGuard g then { cols := outSchema, rows := [] }
  else
    { cols := outSchema,
      rows := (List.range 2).map (fun i =>
        let r := 83 + i
        [getCell g r 0, getCell g r 1, getCell g r 2,
         pipeSize (getCell g r 3) (getCell g r 4) (getCell g r 5),
         getCell g r 6, getCell g r 7, getCell g r 8,
         getCell g r 9, getCell g r 10, getCell g r 11]) }

/-- True exactly when `extract_outgoing_pipes` prints its warning
(core.py line 70 is reached iff the line-69 guard holds). -/
def extract_outgoing_pipes_warns (g : Grid) : Bool := decide (outGuard g)

/-- Helper `get_val` of `extract_location_data` (core.py lines 102-103):
`str(df.iloc[row, col]).strip()` when the position is in bounds, else `""`. -/
def get_val (g : Grid) (row col : Nat) : String :=
  if shape0 g > row ∧ shape1 g > col then pyStrip (getCell g row col) else ""

/-- The padded pandas row `r` of the grid: `shape1 g` cells, `""` beyond the
stored row's width. -/
def paddedRow (g : Grid) (r : Nat) : List String :=
  (List.range (shape1 g)).map (fun c => getCell g r c)

/-- Helper `join_row_range` of `extract_location_data` (core.py lines 106-109):
`""` when the row is out of bounds, otherwise the columns
`start_col:end_col` of that row, each stripped, the empty ones dropped,
joined with single spaces. -/
def join_row_range (g : Grid) (row startCol : Nat) (endCol : Option Nat) : String :=
  if shape0 g ≤ row then ""
  else
    let cells :=
      match endCol with
      | some e => ((paddedRow g row).take e).drop startCol
      | none => (paddedRow g row).drop startCol
    String.intercalate " " (((cells.map pyStrip).filter (fun x => x ≠ "")))

/-- Coordinate parsing of `extract_location_data` (core.py lines 114-119):
if the cell text contains a comma, split on every comma and take the stripped
first and second segments; otherwise both coordinates are `""`. -/
def pyCoordSplit (t : String) : String × String :=
  if t.data.contains ',' then
    let parts := splitOnChar ',' t.data
    if parts.length ≥ 2 then
      (pyStrip (String.mk (parts.getD 0 [])), pyStrip (String.mk (parts.getD 1 [])))
    else ("", "")
  else ("", "")

/-- The fixed `COMPONENTS` labels of the location table
(core.py lines 152-159), in order. -/
def componentLabels : List String :=
  ["Node Reference", "Coordinates X", "Coordinates Y", "Location",
   "Drainage Area Code", "Survey Date",
   "Year Laid", "Status", "Function", "Node Type",
   "Cover Shape", "Hinged", "Lock", "Duty", "Cover Size",
   "Side Entry", "Reg Course", "Depth", "Shaft Size",
   "Soffit", "Steps", "Ladders", "Landings", "Chamber Size",
   "Depth of Flow (mm)", "Depth of Silt (mm)", "Surch Height (mm)",
   "Cover Level (m AD)", "Notes"]

/-- The `VALUE` column of the location table (core.py lines 112-149 and
160-167), in the order of `componentLabels`. -/
def locationValues (g : Grid) : List String :=
  [get_val g 8 2,
   (pyCoordSplit (get_val g 9 2)).1,
   (pyCoordSplit (get_val g 9 2)).2,
   join_row_range g 10 1 none,
   get_val g 12 1,
   join_row_range g 13 2 none,
   get_val g 15 2,
   get_val g 15 4,
   get_val g 15 6,
   get_val g 16 1,
   get_val g 19 2,
   get_val g 19 4,
   get_val g 19 6,
   get_val g 19 8,
   join_row_range g 19 9 none,
   get_val g 26 1,
   get_val g 27 1,
   get_val g 28 1,
   join_row_range g 28 2 (some 5),
   get_val g 30 2,
   get_val g 32 0,
   get_val g 34 1,
   get_val g 34 3,
   join_row_range g 34 4 (some 7),
   get_val g 38 2,
   get_val g 39 2,
   get_val g 44 0,
   get_val g 47 2,
   pyStrip (get_val g 95 0 ++ " " ++ join_row_range g 96 0 none)]

/-- `extract_location_data` (core.py lines 96-169): a two-column
(COMPONENTS, VALUE) table of 29 fixed labelled fields pulled from individual
grid positions, each resolving to `""` when out of bounds.  The function has
no size guard and no warning; it always returns all 29 rows. -/
def extract_location_data (g : Grid) : DF :=
  { cols := ["COMPONENTS", "VALUE"],
    rows := List.zipWith (fun l v => [l, v]) componentLabels (locationValues g) }

/-- True exactly when `extract_location_data` prints a warning: never — the
function body (core.py lines 96-169) contains no print call. -/
def extract_location_data_warns (_ : Grid) : Bool := false

/-- Abstraction of one PDF file as seen through `pypdf.PdfReader`:
whether the reader can open it without raising, and the text
`page.extract_text()` yields for each page, in document order. -/
structure PdfFile where
  readable : Bool
  pages : List String
deriving Repr, DecidableEq

/-- `extract_raw_data` (core.py lines 9-33): tokenize every line of every
page's text into rows of tokens; an unreadable document or a document with no
text yields the empty grid.  (pandas' padding of short rows with `""` lives in
`getCell` / `shape1`.) -/
def extract_raw_data (pdf : PdfFile) : Grid :=
  if pdf.readable then
    pdf.pages.foldl
      (fun acc t => if t ≠ "" then acc ++ (pySplitlines t).map pyTokens else acc) []
  else []

/-- Python `pathlib.Path(name).stem` for a name that ends in ".pdf"
(case-insensitively): drop the 4-character suffix, unless the name *is* the
suffix (a dotfile has no suffix to drop). -/
def pathStem (name : String) : String :=
  if name.length ≤ 4 then name else name.dropRight 4

/-- The filename filter of `run_processing_batch` (core.py line 249):
`file.lower().endswith(".pdf")`. -/
def isPdfName (name : String) : Bool :=
  decide (((name.data.map Char.toLower).reverse.take 4) = ['f', 'd', 'p', '.'])

/-- One worksheet as the list of (row, column, value) cell writes issued for
it.  A field-table sheet (core.py lines 208-221): "Node Reference" at A1, the
node value at B1, then per column its header at row index 2 and its data from
row index 3 on. -/
def renderSheet (node : String) (df : DF) : List (Nat × Nat × String) :=
  [(0, 0, "Node Reference"), (0, 1, node)] ++
  (df.cols.enum.flatMap (fun p =>
    (2, p.1, p.2) ::
    (df.rows.map (fun row => row.getD p.1 "")).enum.map
      (fun q => (q.1 + 3, p.1, q.2))))

/-- The "Raw Data" sheet (core.py line 197): the raw grid with its synthetic
`Col1`, `Col2`, ... header row, written via `df_raw.to_excel`. -/
def rawDF (g : Grid) : DF :=
  { cols := (List.range (shape1 g)).map (fun i => "Col" ++ toString (i + 1)),
    rows := (List.range (shape0 g)).map (fun r => paddedRow g r) }

/-- One output workbook: the resolved node reference and the four sheets in
the order core.py writes them (lines 196-233). -/
structure Workbook where
  node : String
  rawSheet : DF
  sheets : List (String × List (Nat × Nat × String))
deriving Repr, DecidableEq

/-- The workbook `process_pdf` writes for raw grid `g` and node reference
`node` (core.py lines 196-233). -/
def mkWorkbook (g : Grid) (node : String) : Workbook :=
  { node := node,
    rawSheet := rawDF g,
    sheets :=
      [("Location Details", renderSheet node (extract_location_data g)),
       ("Incoming Pipes", renderSheet node (extract_incoming_pipes g)),
       ("Outgoing Pipes", renderSheet node (extract_outgoing_pipes g))] }

/-- Outcome of one `process_pdf` call: returned early without writing
anything, wrote a workbook, or raised an exception that propagates to the
caller. -/
inductive ProcResult where
  | skipped
  | wrote (wb : Workbook)
  | raised (msg : String)
deriving Repr, DecidableEq

/-- The exception raised at core.py line 190: `re.search` is called but
core.py contains no `import re`, so reaching the fallback raises `NameError`. -/
def nameErrorMsg : String := "NameError: name 're' is not defined"

/-- `process_pdf` (core.py lines 171-233): extract the raw grid; return
without writing when it is empty; read the node reference at the fixed
position (8, 2); when it is empty, the fallback re-reads page one and then
hits `re.search` — which raises `NameError`, because core.py never imports
`re` (its imports, lines 3-6, are os, Path, PdfReader, pandas); otherwise
write the four-sheet workbook. -/
def process_pdf (pdf : PdfFile) : ProcResult :=
  let g := extract_raw_data pdf
  if gridEmpty g then ProcResult.skipped
  else
    let node := if shape0 g > 8 ∧ shape1 g > 2 then getCell g 8 2 else ""
    if node = "" then
      if pdf.readable then
        match pdf.pages.head? with
        | none => ProcResult.raised "IndexError: list index out of range"
        | some _ => ProcResult.raised nameErrorMsg
      else ProcResult.raised "PdfReadError"
    else ProcResult.wrote (mkWorkbook g node)

/-- One event in the observable trace of `run_processing_batch`. -/
inductive BatchEvent where
  | mkdirOutput
  | processed (path : String) (r : ProcResult)
deriving Repr, DecidableEq

/-- The event trace of `run_processing_batch` (core.py lines 239-259): the
output directory is created first (line 244, `os.makedirs(..., exist_ok=True)`),
then every discovered ".pdf" file is processed in order; the `try/except` at
lines 254-258 catches every exception, so each file produces exactly one
`processed` event regardless of the others' outcomes.  A directory listing is
abstracted as the ordered list of (file path, PDF content) pairs `os.walk`
yields. -/
def run_processing_batch_trace (files : List (String × PdfFile)) : List BatchEvent :=
  BatchEvent.mkdirOutput ::
  (files.filter (fun f => isPdfName f.1)).map
    (fun f => BatchEvent.processed f.1 (process_pdf f.2))

/-- The failure list `run_processing_batch` returns (core.py lines 245,
256-259): the paths of exactly those processed files whose `process_pdf` call
raised. -/
def run_processing_batch (files : List (String × PdfFile)) : List String :=
  (files.filter (fun f => isPdfName f.1)).filterMap
    (fun f =>
      match process_pdf f.2 with
      | ProcResult.raised _ => some f.1
      | _ => none)

/-- The outputs the batch produces: for each ".pdf" file, the output filename
`<stem>.xlsx` (core.py lines 251-252) paired with the result of its pipeline. -/
def batchOutputs (files : List (String × PdfFile)) : List (String × ProcResult) :=
  (files.filter (fun f => isPdfName f.1)).map
    (fun f => (pathStem f.1 ++ ".xlsx", process_pdf f.2))

/-- Value at row `i` of the `VALUE` column of the location table. -/
def locValue (g : Grid) (i : Nat) : String :=
  ((extract_location_data g).rows.getD i []).getD 1 ""

/-- Running the three field extractors over one grid, keeping the grid they
were given alongside the three derived tables, mirroring the call sequence at
core.py lines 180-182 (after which `df_raw` is read again at line 186). -/
def extractAll (g : Grid) : Grid × DF × DF × DF :=
  (g, extract_incoming_pipes g, extract_outgoing_pipes g, extract_location_data g)

/-- Reference definition following the spec's words ("empty components drop
out, a single space separates the remaining non-empty components, no
leading/trailing space"): strip all components, drop the empty ones, join with
single spaces.  For comparison with `pipeSize`, which is translated from the
code. -/
def specSpaceJoin (components : List String) : String :=
  String.intercalate " " ((components.map pyStrip).filter (fun x => x ≠ ""))

/-- Reference definition following the claim's words ("splitting the
coordinate cell's text on the first comma, trimming both halves"), for
comparison with `pyCoordSplit`, which is translated from the code. -/
def specFirstCommaSplit (t : String) : String × String :=
  if t.data.contains ',' then
    let parts := (splitOnChar ',' t.data).map String.mk
    (pyStrip (parts.getD 0 ""), pyStrip (String.intercalate "," (parts.drop 1)))
  else ("", "")

/-- A readable one-page PDF whose text tokenizes to the 1x3 grid
`[["a","b","c"]]`: too short for the fixed node-reference position (9th row),
so `process_pdf` takes the fallback branch. -/
def badPdf : PdfFile := { readable := true, pages := ["a b c"] }

/-- An unreadable PDF: `extract_raw_data` yields the empty grid. -/
def unreadablePdf : PdfFile := { readable := false, pages := [] }

/-- An 11-token row whose middle pipe-size component (column 4) is empty. -/
def rowC2 : List String :=
  ["id", "up", "sh", "300", "", "450", "b", "m", "l", "d", "i"]

/-- A 70-row, 11-column grid passing `extract_incoming_pipes`' size guard,
with an empty middle pipe-size component in every row. -/
def gC2 : Grid := List.replicate 70 rowC2

/-- A 12-token row with all three pipe-size components nonempty. -/
def rowBig : List String :=
  ["id", "up", "sh", "300", "x", "450", "c", "r", "m", "l", "d", "i"]

/-- An 85-row, 12-column grid passing both pipe extractors' size guards. -/
def gBig : Grid := List.replicate 85 rowBig

/-- A grid whose coordinate cell (row 9, column 2) holds two commas. -/
def gC3 : Grid := List.replicate 10 ["", "", "1,2,3"]

/-- A grid whose coordinate cell holds the spec's example text. -/
def gC3ex : Grid := List.replicate 10 ["", "", "123456, 654321"]

theorem splitOnChar_ne_nil (c : Char) : ∀ cs : List Char, splitOnChar c cs ≠ []
  | [] => by simp [splitOnChar]
  | x :: xs => by
    simp only [splitOnChar]
    split
    · simp
    · split
      · simp
      · simp

theorem two_le_length_splitOnChar (c : Char) (cs : List Char) (h : c ∈ cs) :
    2 ≤ (splitOnChar c cs).length := by
  induction cs with
  | nil => simp at h
  | cons x xs ih =>
    simp only [splitOnChar]
    by_cases hx : x = c
    · rw [if_pos hx]
      have hne := splitOnChar_ne_nil c xs
      have h1 : 1 ≤ (splitOnChar c xs).length := by
        cases hsp : splitOnChar c xs with
        | nil => exact absurd hsp hne
        | cons y ys => simp
      simpa using Nat.succ_le_succ h1
    · rw [if_neg hx]
      have hc : c ∈ xs := by
        rcases List.mem_cons.mp h with h1 | h2
        · exact absurd h1.symm hx
        · exact h2
      have h2 := ih hc
      cases hsp : splitOnChar c xs with
      | nil => exact absurd hsp (splitOnChar_ne_nil c xs)
      | cons y ys =>
        rw [hsp] at h2
        simpa using h2

theorem pyCoordSplit_of_contains (t : String) (h : t.data.contains ',' = true) :
    pyCoordSplit t =
      (pyStrip (String.mk ((splitOnChar ',' t.data).getD 0 [])),
       pyStrip (String.mk ((splitOnChar ',' t.data).getD 1 []))) := by
  have hm : ',' ∈ t.data := by simpa using h
  have h2 : (splitOnChar ',' t.data).length ≥ 2 := two_le_length_splitOnChar ',' t.data hm
  unfold pyCoordSplit
  simp only [h, if_true, if_pos h2]

/-- C1, counterexample.  The empty grid is smaller than every extractor's
required bounds, yet `extract_location_data` returns 29 rows — not zero — and
emits no warning, so the claim is false as stated for that extractor. -/
theorem c1_location_not_zero_rows :
    shape0 ([] : Grid) = 0 ∧
    (extract_location_data ([] : Grid)).rows.length = 29 ∧
    ¬ (extract_location_data ([] : Grid)).rows.length = 0 ∧
    extract_location_data_warns ([] : Grid) = false := by decide

/-- C1, amended.  For every grid smaller than the minimum bounds of
`extract_incoming_pipes` (70 rows, 11 columns) or `extract_outgoing_pipes`
(85 rows, 12 columns), that extractor warns and returns the fixed schema with
zero rows; `extract_location_data`, by contrast, has no size guard: it never
warns and always returns its full 29-row table.  None of the three raises:
each is a total function. -/
theorem c1_undersized_grid_behaviour (g : Grid) :
    (shape0 g < 70 ∨ shape1 g < 11 →
      extract_incoming_pipes g = { cols := inSchema, rows := [] } ∧
      extract_incoming_pipes_warns g = true) ∧
    (shape0 g < 85 ∨ shape1 g < 12 →
      extract_outgoing_pipes g = { cols := outSchema, rows := [] } ∧
      extract_outgoing_pipes_warns g = true) ∧
    (extract_location_data g).rows.length = 29 ∧
    extract_location_data_warns g = false := by
  refine ⟨?_, ?_, rfl, rfl⟩
  · intro h
    have hg : inGuard g := Or.inr h
    exact ⟨by unfold extract_incoming_pipes; rw [if_pos hg], decide_eq_true hg⟩
  · intro h
    have hg : outGuard g := Or.inr h
    exact ⟨by unfold extract_outgoing_pipes; rw [if_pos hg], decide_eq_true hg⟩

theorem c1_undersized_grid_behaviour_witness :
    (shape0 ([] : Grid) < 70 ∨ shape1 ([] : Grid) < 11) ∧
    (shape0 ([] : Grid) < 85 ∨ shape1 ([] : Grid) < 12) ∧
    extract_incoming_pipes ([] : Grid) = { cols := inSchema, rows := [] } ∧
    extract_outgoing_pipes ([] : Grid) = { cols := outSchema, rows := [] } :=
  ⟨Or.inl (by decide), Or.inl (by decide),
   ((c1_undersized_grid_behaviour []).1 (Or.inl (by decide))).1,
   ((c1_undersized_grid_behaviour []).2.1 (Or.inl (by decide))).1⟩

/-- C2, counterexample.  On a well-formed grid whose row 63 has pipe-size
components "300", "", "450", the code's field keeps both separator spaces and
equals "300  450" (double space), while the claim's rule (drop empty
components, join the rest with single spaces) gives "300 450". -/
theorem c2_middle_empty_component :
    ((extract_incoming_pipes gC2).rows.getD 0 []).getD 3 "" = "300  450" ∧
    specSpaceJoin ["300", "", "450"] = "300 450" ∧
    ("300  450" : String) ≠ "300 450" := by decide

/-- C2, amended.  The unified pipe-size field equals `pipeSize` of the three
source cells: each component is stripped, the three are joined with single
spaces, and the result is stripped again.  Empty components at either end
therefore drop out without extra spaces and the spec's two examples hold, but
an empty middle component leaves a doubled separator. -/
theorem c2_pipe_size_field (g : Grid) :
    (¬ inGuard g → ∀ i, i < 7 →
      ((extract_incoming_pipes g).rows.getD i []).getD 3 "" =
        pipeSize (getCell g (63 + i) 3) (getCell g (63 + i) 4) (getCell g (63 + i) 5)) ∧
    (¬ outGuard g → ∀ i, i < 2 →
      ((extract_outgoing_pipes g).rows.getD i []).getD 3 "" =
        pipeSize (getCell g (83 + i) 3) (getCell g (83 + i) 4) (getCell g (83 + i) 5)) ∧
    pipeSize "300" "x" "450" = "300 x 450" ∧
    pipeSize "" "mm" "" = "mm" ∧
    pipeSize "300" "" "450" = "300" ++ "  " ++ "450" := by
  refine ⟨?_, ?_, by decide, by decide, by decide⟩
  · intro h i hi
    unfold extract_incoming_pipes
    rw [if_neg h]
    simp [List.getD, List.getElem?_map, List.getElem?_range, hi]
  · intro h i hi
    unfold extract_outgoing_pipes
    rw [if_neg h]
    simp [List.getD, List.getElem?_map, List.getElem?_range, hi]

theorem c2_pipe_size_field_witness :
    ¬ inGuard gBig ∧
    ((extract_incoming_pipes gBig).rows.getD 0 []).getD 3 "" =
      pipeSize (getCell gBig 63 3) (getCell gBig 63 4) (getCell gBig 63 5) ∧
    ¬ outGuard gBig ∧
    ((extract_outgoing_pipes gBig).rows.getD 0 []).getD 3 "" =
      pipeSize (getCell gBig 83 3) (getCell gBig 83 4) (getCell gBig 83 5) :=
  ⟨by decide, (c2_pipe_size_field gBig).1 (by decide) 0 (by decide),
   by decide, (c2_pipe_size_field gBig).2.1 (by decide) 0 (by decide)⟩

/-- C3, counterexample.  On a grid whose coordinate cell is "1,2,3" the code
yields Y = "2" (the segment between the first and second comma), while
splitting on the *first* comma and trimming both halves would yield
Y = "2,3". -/
theorem c3_two_comma_cell :
    locValue gC3 1 = "1" ∧
    locValue gC3 2 = "2" ∧
    (specFirstCommaSplit "1,2,3").2 = "2,3" ∧
    ("2" : String) ≠ "2,3" := by decide

/-- C3, amended.  The coordinate pair is obtained by splitting the coordinate
cell's text on *every* comma: X is the stripped segment before the first
comma, Y the stripped segment between the first and second comma (not the
whole remainder).  A cell with no comma yields two empty strings, and the
spec's example "123456, 654321" parses as claimed. -/
theorem c3_coordinate_parsing (g : Grid) :
    locValue g 1 = (pyCoordSplit (get_val g 9 2)).1 ∧
    locValue g 2 = (pyCoordSplit (get_val g 9 2)).2 ∧
    (∀ t : String, t.data.contains ',' = false → pyCoordSplit t = ("", "")) ∧
    (∀ t : String, t.data.contains ',' = true →
      pyCoordSplit t =
        (pyStrip (String.mk ((splitOnChar ',' t.data).getD 0 [])),
         pyStrip (String.mk ((splitOnChar ',' t.data).getD 1 [])))) ∧
    pyCoordSplit "123456, 654321" = ("123456", "654321") := by
  refine ⟨rfl, rfl, ?_, ?_, by decide⟩
  · intro t ht
    unfold pyCoordSplit
    simp only [ht]
    rfl
  · intro t ht
    exact pyCoordSplit_of_contains t ht

theorem c3_coordinate_parsing_witness :
    locValue gC3ex 1 = (pyCoordSplit (get_val gC3ex 9 2)).1 ∧
    locValue gC3ex 1 = "123456" ∧
    pyCoordSplit "no-comma-text" = ("", "") :=
  ⟨(c3_coordinate_parsing gC3ex).1, by decide,
   (c3_coordinate_parsing gC3ex).2.2.1 "no-comma-text" (by decide)⟩

/-- C4.  The claim describes core.py's intent (lines 187-194: try a regex
over page-one text, else fall back to "UNKNOWN_NODE"), but the code is wrong:
`re.search` at line 190 is reached with `re` never imported (core.py imports
only os, Path, PdfReader and pandas), so a missing node reference raises
`NameError` instead of resolving to the sentinel.  Evaluated here on a
readable one-page PDF whose grid is too short to hold the fixed node-reference
position. -/
theorem c4_missing_node_reference_raises :
    process_pdf badPdf = ProcResult.raised nameErrorMsg := by decide

/-- C5.  Every field extractor returns its fixed documented column schema —
names and order — on every input grid, undersized or not. -/
theorem c5_schema_constant (g : Grid) :
    (extract_incoming_pipes g).cols = inSchema ∧
    (extract_outgoing_pipes g).cols = outSchema ∧
    (extract_location_data g).cols = ["COMPONENTS", "VALUE"] := by
  refine ⟨?_, ?_, rfl⟩
  · unfold extract_incoming_pipes
    split <;> rfl
  · unfold extract_outgoing_pipes
    split <;> rfl

/-- C6.  When raw extraction yields the empty grid, `process_pdf` returns
early (core.py lines 176-178) without reaching the workbook writer, and a
batch over that file records no failure: the failure list collects only files
whose pipeline raised (core.py lines 254-258), and a skip is not a raise. -/
theorem c6_empty_grid_skipped (pdf : PdfFile)
    (h : extract_raw_data pdf = []) :
    process_pdf pdf = ProcResult.skipped ∧
    ∀ name, run_processing_batch [(name, pdf)] = [] := by
  have hskip : process_pdf pdf = ProcResult.skipped := by
    unfold process_pdf
    rw [h]
    rfl
  refine ⟨hskip, ?_⟩
  intro name
  unfold run_processing_batch
  by_cases hn : isPdfName name = true
  · simp [List.filter, List.filterMap, hn, hskip]
  · simp [List.filter, List.filterMap, hn]

theorem c6_empty_grid_skipped_witness :
    extract_raw_data unreadablePdf = [] ∧
    process_pdf unreadablePdf = ProcResult.skipped ∧
    run_processing_batch [("f.pdf", unreadablePdf)] = [] :=
  ⟨by decide, (c6_empty_grid_skipped unreadablePdf (by decide)).1,
   (c6_empty_grid_skipped unreadablePdf (by decide)).2 "f.pdf"⟩

/-- C7.  The batch creates the output directory before processing any file
(core.py line 244 precedes the walk), and every discovered ".pdf" file is
processed exactly once regardless of the other files' outcomes; a file whose
pipeline raises is recorded in the returned failure list (lines 254-258), and
the batch itself is a total function — no exception escapes it. -/
theorem c7_batch_failure_isolation (files : List (String × PdfFile)) :
    (run_processing_batch_trace files).head? = some BatchEvent.mkdirOutput ∧
    ∀ f ∈ files, isPdfName f.1 = true →
      BatchEvent.processed f.1 (process_pdf f.2) ∈ run_processing_batch_trace files ∧
      ∀ m, process_pdf f.2 = ProcResult.raised m →
        f.1 ∈ run_processing_batch files := by
  refine ⟨rfl, ?_⟩
  intro f hf hp
  constructor
  · unfold run_processing_batch_trace
    exact List.mem_cons_of_mem _
      (List.mem_map_of_mem _ (List.mem_filter.mpr ⟨hf, by simpa using hp⟩))
  · intro m hm
    unfold run_processing_batch
    exact List.mem_filterMap.mpr
      ⟨f, List.mem_filter.mpr ⟨hf, by simpa using hp⟩, by rw [hm]⟩

theorem c7_batch_failure_isolation_witness :
    (run_processing_batch_trace [("bad.pdf", badPdf)]).head? =
      some BatchEvent.mkdirOutput ∧
    BatchEvent.processed "bad.pdf" (process_pdf badPdf) ∈
      run_processing_batch_trace [("bad.pdf", badPdf)] ∧
    "bad.pdf" ∈ run_processing_batch [("bad.pdf", badPdf)] := by
  have h := c7_batch_failure_isolation [("bad.pdf", badPdf)]
  have h2 := h.2 ("bad.pdf", badPdf) (by simp) (by decide)
  exact ⟨h.1, h2.1, h2.2 nameErrorMsg (by decide)⟩

/-- C8.  The per-file pipeline is a pure function of the discovered files'
names and contents (core.py reads no clock, randomness or global mutable
state), so two batch runs over equal directory listings produce equal output
filenames and equal workbook contents, cell for cell. -/
theorem c8_batch_deterministic (files1 files2 : List (String × PdfFile))
    (h : files1 = files2) :
    batchOutputs files1 = batchOutputs files2 ∧
    (batchOutputs files1).map Prod.fst = (batchOutputs files2).map Prod.fst := by
  subst h
  exact ⟨rfl, rfl⟩

theorem c8_batch_deterministic_witness :
    batchOutputs [("a.pdf", badPdf), ("b.pdf", unreadablePdf)] =
      batchOutputs [("a.pdf", badPdf), ("b.pdf", unreadablePdf)] ∧
    (batchOutputs [("a.pdf", badPdf), ("b.pdf", unreadablePdf)]).map Prod.fst =
      (batchOutputs [("a.pdf", badPdf), ("b.pdf", unreadablePdf)]).map Prod.fst :=
  c8_batch_deterministic _ _ rfl

/-- C9.  The Python extractors never mutate `df_raw`: every operation they
apply (`.iloc` slicing, `.reset_index(drop=True)`, `.fillna`, `.astype`,
string methods, column assignment on a freshly constructed DataFrame) returns
a new object, so their faithful embedding is as pure functions, and each
derived table is built from fresh lists rather than aliasing the grid.  In
that embedding, the grid threaded through all three extractor calls (core.py
lines 180-182) is unchanged — in particular the node-reference read at line
186 still sees the original grid — and each returned table equals the one the
extractor computes from the untouched grid. -/
theorem c9_extractors_do_not_mutate (g : Grid) :
    (extractAll g).1 = g ∧
    extract_incoming_pipes (extractAll g).1 = (extractAll g).2.1 ∧
    extract_outgoing_pipes (extractAll g).1 = (extractAll g).2.2.1 ∧
    extract_location_data (extractAll g).1 = (extractAll g).2.2.2 ∧
    (if shape0 (extractAll g).1 > 8 ∧ shape1 (extractAll g).1 > 2
      then getCell (extractAll g).1 8 2 else "") =
    (if shape0 g > 8 ∧ shape1 g > 2 then getCell g 8 2 else "") :=
  ⟨rfl, rfl, rfl, rfl, rfl⟩

/-- C10.  `extract_location_data` always returns exactly 29 (label, value)
rows, its COMPONENTS column is the fixed label sequence in its fixed order,
out-of-bounds positions resolve to the empty string, and the table is never
empty — on the empty grid every value is "". -/
theorem c10_location_table_shape (g : Grid) :
    (extract_location_data g).rows.length = 29 ∧
    (extract_location_data g).rows.map (fun r => r.getD 0 "") = componentLabels ∧
    (extract_location_data g).rows ≠ [] ∧
    (∀ r c, shape0 g ≤ r ∨ shape1 g ≤ c → get_val g r c = "") ∧
    (g = [] → ∀ row ∈ (extract_location_data g).rows, row.getD 1 "" = "") := by
  refine ⟨rfl, rfl, ?_, ?_, ?_⟩
  · exact List.cons_ne_nil _ _
  · intro r c h
    unfold get_val
    rw [if_neg]
    intro hc
    rcases h with h | h
    · omega
    · omega
  · intro h
    subst h
    decide

theorem c10_location_table_shape_witness :
    (extract_location_data ([] : Grid)).rows.length = 29 ∧
    get_val ([] : Grid) 96 0 = "" ∧
    ∀ row ∈ (extract_location_data ([] : Grid)).rows, row.getD 1 "" = "" :=
  ⟨(c10_location_table_shape []).1,
   (c10_location_table_shape []).2.2.2.1 96 0 (Or.inl (by decide)),
   (c10_location_table_shape []).2.2.2.2 rfl⟩

end DocTool
